import Mathlib

/-!
Verification of the session/profile store of `src/src/store/authStore.ts`
(repository mrliemkhiet/todolist).

The store is shallowly embedded: every operation (`initialize`, `login`,
`signup`, `logout`, `fetchProfile`, `updateProfile`, `clearError`) and the
`onAuthStateChange` notification handler becomes a pure state transformer.
A remote call (Supabase auth / `profiles` table) is modelled by an explicit
outcome value passed as an argument; an operation that can reject its
promise returns `AuthState × Option String`, the second component being the
thrown error message (`none` = the promise resolves).

JavaScript truthiness matters in several spots (`||` chains, `!x` on a
possibly-empty string); it is modelled explicitly by `jsFalsy` / `strOrD`.
-/

namespace AuthStore

/-- `Profile` record from authStore.ts lines 6-13. -/
structure Profile where
  id : String
  email : String
  name : String
  avatar_url : Option String
  created_at : String
  updated_at : String
deriving DecidableEq, Repr

/-- The fields of the Supabase `User` object that authStore.ts reads:
`id`, `email`, `email_confirmed_at` and `user_metadata?.name`. -/
structure User where
  id : String
  email : Option String
  email_confirmed_at : Option String
  metadata_name : Option String
deriving DecidableEq, Repr

/-- A Supabase `Session`; the store only dereferences `session.user`,
the rest is opaque token material. -/
structure Session where
  user : User
  access_token : String
deriving DecidableEq, Repr

/-- The store's state slice (authStore.ts lines 15-21 / 36-41). -/
structure AuthState where
  user : Option User
  profile : Option Profile
  session : Option Session
  isLoading : Bool
  isInitialized : Bool
  error : Option String
deriving DecidableEq, Repr

/-- The initial state of the store (authStore.ts lines 36-41). -/
def initialState : AuthState :=
  { user := none, profile := none, session := none,
    isLoading := false, isInitialized := false, error := none }

/-- JavaScript truthiness of an optional string: `undefined`/`null` and
the empty string are falsy. -/
def jsFalsy : Option String → Bool
  | none => true
  | some s => s = ""

/-- JavaScript `m || d` for strings: the empty string falls through to the
default. -/
def strOrD (m d : String) : String := if m = "" then d else m

/-- JavaScript `a || b` where `a` is an optional string. -/
def jsOr (a : Option String) (b : String) : String :=
  match a with
  | none => b
  | some s => strOrD s b

/-- `s.includes(pat)`: `String.splitOn` yields more than one piece exactly
when the pattern occurs. -/
def containsSub (s pat : String) : Bool := (s.splitOn pat).length != 1

/-- Outcome of the `profiles` select-by-id call (authStore.ts lines 206-210):
either a row, or an error carrying a PostgREST code. -/
inductive FetchResult where
  | found (p : Profile)
  | errCode (code : String) (msg : String)
deriving DecidableEq, Repr

/-- Outcome of the `profiles` insert call (authStore.ts lines 215-223). -/
inductive InsertResult where
  | ok (p : Profile)
  | err (msg : String)
deriving DecidableEq, Repr

/-- The seed `name` sent on profile creation (authStore.ts line 220):
`user.user_metadata?.name || user.email?.split('@')[0] || 'User'`. -/
def seedName (u : User) : String :=
  jsOr u.metadata_name
    (jsOr (u.email.map (fun e => ((e.splitOn "@").headD ""))) "User")

/-- The row the store sends to the repository on lazy creation
(authStore.ts lines 217-221). -/
def insertPayload (u : User) : String × String × String :=
  (u.id, jsOr u.email "", seedName u)

/-- `fetchProfile` (authStore.ts lines 201-242). No-op when `user` is null;
on a row, stores it; on error code `PGRST116` inserts a fresh row and
stores the returned record (or only logs if the insert fails); any other
error is thrown and swallowed by the surrounding catch. The `Option String`
component is the rejection of the returned promise — always `none` because
the catch on lines 237-241 swallows everything. -/
def fetchProfile (s : AuthState) (fr : FetchResult) (ins : InsertResult) :
    AuthState × Option String :=
  match s.user with
  | none => (s, none)
  | some _ =>
    match fr with
    | .found p => ({ s with profile := some p }, none)
    | .errCode code _msg =>
      if code = "PGRST116" then
        match ins with
        | .ok newProfile => ({ s with profile := some newProfile }, none)
        | .err _ => (s, none)
      else
        (s, none)

/-- Outcome of `supabase.auth.signInWithPassword` (authStore.ts
lines 102-105): either an error object, or `data` with possibly-null
`user` and `session`. -/
inductive LoginResult where
  | err (msg : String)
  | ok (user : Option User) (session : Option Session)
deriving DecidableEq, Repr

/-- Translation of the sign-in error (authStore.ts lines 107-113): an
"Email not confirmed" message is replaced by a user-facing one, then the
error is thrown. -/
def loginErrMsg (msg : String) : String :=
  if containsSub msg "Email not confirmed" then
    "Please confirm your email address by clicking the link in the email we sent you."
  else msg

/-- `login` (authStore.ts lines 98-133). Sets `isLoading` and clears
`error`, then: on provider error, records `error.message || 'Login failed'`
and re-throws; on success with a user, stores user/session and runs
`fetchProfile`; on success without a user, does nothing further (the
`if (data.user)` guard on line 115). -/
def login (s : AuthState) (_email _password : String) (r : LoginResult)
    (fr : FetchResult) (ins : InsertResult) : AuthState × Option String :=
  let s1 := { s with isLoading := true, error := none }
  match r with
  | .err msg =>
    let m := loginErrMsg msg
    ({ s1 with error := some (strOrD m "Login failed"), isLoading := false },
     some m)
  | .ok ou os =>
    match ou with
    | none => (s1, none)
    | some u =>
      let s2 := { s1 with user := some u, session := os, isLoading := false }
      ((fetchProfile s2 fr ins).1, none)

/-- Outcome of `supabase.auth.signUp` (authStore.ts lines 139-147). -/
inductive SignupResult where
  | err (msg : String)
  | ok (user : Option User) (session : Option Session)
deriving DecidableEq, Repr

/-- The informational message set when the returned identity is not yet
email-confirmed (authStore.ts line 155). -/
def confirmationPendingMsg : String :=
  "Please check your email and click the confirmation link to complete your registration."

/-- `signup` (authStore.ts lines 135-176). On provider error, records
`error.message || 'Signup failed'` and re-throws. On success: if
`data.user` exists but `!data.user.email_confirmed_at` (JS falsy: missing
or empty), set the confirmation-pending `error`, stop loading and return
without touching user/session; otherwise store user and session. -/
def signup (s : AuthState) (_email _password _name : String)
    (r : SignupResult) : AuthState × Option String :=
  let s1 := { s with isLoading := true, error := none }
  match r with
  | .err msg =>
    ({ s1 with error := some (strOrD msg "Signup failed"), isLoading := false },
     some msg)
  | .ok ou os =>
    match ou with
    | none => (s1, none)
    | some u =>
      if jsFalsy u.email_confirmed_at then
        ({ s1 with error := some confirmationPendingMsg, isLoading := false },
         none)
      else
        ({ s1 with user := some u, session := os, isLoading := false }, none)

/-- Outcome of `supabase.auth.signOut` (authStore.ts line 182). -/
inductive SignOutResult where
  | ok
  | err (msg : String)
deriving DecidableEq, Repr

/-- `logout` (authStore.ts lines 178-199). On success clears
user/profile/session; on failure records `error.message || 'Logout failed'`
— the catch does NOT re-throw, so the promise always resolves. -/
def logout (s : AuthState) (r : SignOutResult) : AuthState × Option String :=
  let s1 := { s with isLoading := true, error := none }
  match r with
  | .ok =>
    ({ s1 with user := none, profile := none, session := none,
               isLoading := false }, none)
  | .err msg =>
    ({ s1 with error := some (strOrD msg "Logout failed"), isLoading := false },
     none)

/-- Outcome of the `profiles` update call (authStore.ts lines 251-256). -/
inductive UpdateResult where
  | ok (p : Profile)
  | err (msg : String)
deriving DecidableEq, Repr

/-- `updateProfile` (authStore.ts lines 244-271). No-op when `user` is
null. Otherwise sets loading, and on success replaces `profile`; on
failure records `error.message || 'Failed to update profile'` — the catch
does NOT re-throw. -/
def updateProfile (s : AuthState) (r : UpdateResult) :
    AuthState × Option String :=
  match s.user with
  | none => (s, none)
  | some _ =>
    let s1 := { s with isLoading := true, error := none }
    match r with
    | .ok p => ({ s1 with profile := some p, isLoading := false }, none)
    | .err msg =>
      ({ s1 with error := some (strOrD msg "Failed to update profile"),
                 isLoading := false }, none)

/-- `clearError` (authStore.ts lines 273-275). -/
def clearError (s : AuthState) : AuthState := { s with error := none }

/-- Outcome of `supabase.auth.getSession` (authStore.ts line 46): either a
result `{ data: { session }, error }` — a returned error is only logged
(line 49) — or a thrown exception reaching the catch on line 89. -/
inductive GetSessionResult where
  | ok (session : Option Session) (error : Option String)
  | thrown (msg : String)
deriving DecidableEq, Repr

/-- `initialize` (authStore.ts lines 43-96), named `initStore` here. If a
session with a user is present, stores user+session, marks initialized and
fetches the profile; otherwise (including a returned, merely-logged
`getSession` error) just marks initialized. A thrown exception is caught:
`error` is set to its message and `isInitialized` to true. Never re-throws. -/
def initStore (s : AuthState) (r : GetSessionResult) (fr : FetchResult)
    (ins : InsertResult) : AuthState × Option String :=
  match r with
  | .thrown msg => ({ s with error := some msg, isInitialized := true }, none)
  | .ok osess _e =>
    match osess with
    | some sess =>
      let s1 := { s with user := some sess.user, session := some sess,
                         isInitialized := true }
      ((fetchProfile s1 fr ins).1, none)
    | none => ({ s with isInitialized := true }, none)

/-- The event kinds the `onAuthStateChange` handler distinguishes
(authStore.ts line 77). -/
inductive AuthEvent where
  | signedIn
  | signedOut
  | tokenRefreshed
  | other
deriving DecidableEq, Repr

/-- The `onAuthStateChange` handler (authStore.ts lines 66-88). With a
session: stores user+session, clears `error`, and on `SIGNED_IN` or
`TOKEN_REFRESHED` fetches the profile. Without: clears
user/profile/session/error. Never raises. -/
def onAuthChange (s : AuthState) (ev : AuthEvent) (osess : Option Session)
    (fr : FetchResult) (ins : InsertResult) : AuthState :=
  match osess with
  | some sess =>
    let s1 := { s with user := some sess.user, session := some sess,
                       error := none }
    if ev = .signedIn ∨ ev = .tokenRefreshed then (fetchProfile s1 fr ins).1
    else s1
  | none =>
    { s with user := none, profile := none, session := none, error := none }

/-- One invocation of a store operation or a pushed notification, together
with the outcomes of the remote calls it performs. -/
inductive Action where
  | init (r : GetSessionResult) (fr : FetchResult) (ins : InsertResult)
  | login (email password : String) (r : LoginResult) (fr : FetchResult)
      (ins : InsertResult)
  | signup (email password name : String) (r : SignupResult)
  | logout (r : SignOutResult)
  | fetchProfile (fr : FetchResult) (ins : InsertResult)
  | updateProfile (r : UpdateResult)
  | clearError
  | notify (ev : AuthEvent) (osess : Option Session) (fr : FetchResult)
      (ins : InsertResult)

/-- The state reached after running one action to completion. -/
def step (s : AuthState) : Action → AuthState
  | .init r fr ins => (initStore s r fr ins).1
  | .login e p r fr ins => (login s e p r fr ins).1
  | .signup e p n r => (signup s e p n r).1
  | .logout r => (logout s r).1
  | .fetchProfile fr ins => (fetchProfile s fr ins).1
  | .updateProfile r => (updateProfile s r).1
  | .clearError => clearError s
  | .notify ev osess fr ins => onAuthChange s ev osess fr ins

/-- States reachable from the store's initial state by any sequence of
operations and notifications. -/
inductive Reachable : AuthState → Prop where
  | start : Reachable initialState
  | next (s : AuthState) (a : Action) : Reachable s → Reachable (step s a)

/-! ### Persistence policy

The store is wrapped in `persist` with key `'auth-storage'` and a
`partialize` that returns an object with no fields (authStore.ts
lines 277-282). Rehydration merges the saved partial state over the
initial state. -/

/-- A saved partial snapshot: each field either absent or a saved value. -/
structure PartialAuthState where
  user : Option (Option User) := none
  profile : Option (Option Profile) := none
  session : Option (Option Session) := none
  isLoading : Option Bool := none
  isInitialized : Option Bool := none
  error : Option (Option String) := none
deriving DecidableEq, Repr

/-- The persistence key (authStore.ts line 278). -/
def storageKey : String := "auth-storage"

/-- The field-selection policy (authStore.ts lines 279-281): the returned
object has no fields at all. -/
def partialize (_s : AuthState) : PartialAuthState := {}

/-- Zustand rehydration: saved fields override the initial state,
absent fields keep it. -/
def mergePersisted (base : AuthState) (p : PartialAuthState) : AuthState :=
  { user := p.user.getD base.user,
    profile := p.profile.getD base.profile,
    session := p.session.getD base.session,
    isLoading := p.isLoading.getD base.isLoading,
    isInitialized := p.isInitialized.getD base.isInitialized,
    error := p.error.getD base.error }

/-- State of the store at process start, after rehydrating a saved
partial snapshot. -/
def rehydrate (p : PartialAuthState) : AuthState := mergePersisted initialState p

/-! ### Interleaving model of concurrent `fetchProfile` calls

`fetchProfile` (authStore.ts lines 201-242) suspends at two awaits: the
select (lines 206-210) and, on the not-found code `PGRST116`, the insert
(lines 215-223). Two concurrent invocations for the same identity are
modelled as two threads, each an instance of that control flow; the
repository is a list of row ids plus a counter of insert statements
issued. Receiving the select response and issuing the insert happen in
one synchronous segment, exactly as in the source, where no code runs
between the `error.code === 'PGRST116'` test and the insert call. -/

/-- Control point of one in-flight `fetchProfile` execution. -/
inductive FPPhase where
  | ready
  | selectPending
  | insertPending
  | done
deriving DecidableEq, Repr

/-- Two concurrent `fetchProfile` executions over one repository. -/
structure RaceSys where
  rows : List String
  insertCalls : Nat
  t1 : FPPhase
  t2 : FPPhase
deriving DecidableEq, Repr

/-- Both calls about to run, the profile row absent, no insert issued. -/
def raceInit : RaceSys := ⟨[], 0, .ready, .ready⟩

/-- A scheduling choice: which thread's pending event fires next. -/
inductive RChoice where
  | issueSelect (second : Bool)
  | selectReturns (second : Bool)
  | insertReturns (second : Bool)

/-- The phase of the chosen thread. -/
def RaceSys.phase (sys : RaceSys) (second : Bool) : FPPhase :=
  if second then sys.t2 else sys.t1

/-- Replace the phase of the chosen thread. -/
def RaceSys.setPhase (sys : RaceSys) (second : Bool) (ph : FPPhase) : RaceSys :=
  if second then { sys with t2 := ph } else { sys with t1 := ph }

/-- One scheduler step. A select that returns not-found immediately puts
the thread's insert in flight (authStore.ts lines 212-223 run without an
intervening suspension); a completed insert appends a row. A choice whose
thread is not at the matching phase changes nothing. -/
def rstep (uid : String) (sys : RaceSys) (c : RChoice) : RaceSys :=
  match c with
  | .issueSelect i =>
    if sys.phase i = .ready then sys.setPhase i .selectPending else sys
  | .selectReturns i =>
    if sys.phase i = .selectPending then
      if uid ∈ sys.rows then sys.setPhase i .done
      else { sys.setPhase i .insertPending with insertCalls := sys.insertCalls + 1 }
    else sys
  | .insertReturns i =>
    if sys.phase i = .insertPending then
      { sys.setPhase i .done with rows := uid :: sys.rows }
    else sys

/-- Run a schedule from `raceInit`. -/
def runRace (uid : String) (cs : List RChoice) : RaceSys :=
  cs.foldl (rstep uid) raceInit

/-- The interleaving in which both selects are answered not-found before
either insert lands: both calls go on to insert. -/
def raceSchedule : List RChoice :=
  [.issueSelect false, .issueSelect true, .selectReturns false, .selectReturns true]

/-! ### Sample values used by concrete instantiations. -/

/-- A confirmed identity. -/
def sampleUser : User :=
  { id := "u1", email := some "a@x.com",
    email_confirmed_at := some "2024-01-01T00:00:00Z",
    metadata_name := some "Alice" }

/-- A profile row for `sampleUser`. -/
def sampleProfile : Profile :=
  { id := "u1", email := "a@x.com", name := "Alice", avatar_url := none,
    created_at := "t0", updated_at := "t0" }

/-- A session carrying `sampleUser`. -/
def sampleSession : Session := { user := sampleUser, access_token := "tok" }

/-- An identity whose email is not yet confirmed. -/
def unconfirmedUser : User :=
  { id := "u2", email := some "b@x.com", email_confirmed_at := none,
    metadata_name := some "Bob" }

/-- A state reached by a successful login (with the profile found). -/
def loggedInState : AuthState :=
  (login initialState "a@x.com" "pw"
    (.ok (some sampleUser) (some sampleSession))
    (.found sampleProfile) (.ok sampleProfile)).1

/-! ### Helper lemmas -/

/-- `fetchProfile` touches only the `profile` field and never rejects. -/
lemma fetchProfile_frame (s : AuthState) (fr : FetchResult) (ins : InsertResult) :
    (fetchProfile s fr ins).1.user = s.user ∧
    (fetchProfile s fr ins).1.session = s.session ∧
    (fetchProfile s fr ins).1.isLoading = s.isLoading ∧
    (fetchProfile s fr ins).1.isInitialized = s.isInitialized ∧
    (fetchProfile s fr ins).1.error = s.error ∧
    (fetchProfile s fr ins).2 = none := by
  unfold fetchProfile
  cases hs : s.user with
  | none => simp [hs]
  | some u =>
    cases fr with
    | found p => simp [hs]
    | errCode code msg =>
      by_cases hc : code = "PGRST116"
      · cases ins <;> simp [hc, hs]
      · simp [hc, hs]

/-- `fetchProfile` with no current user does nothing. -/
lemma fetchProfile_noUser (s : AuthState) (fr : FetchResult)
    (ins : InsertResult) (h : s.user = none) :
    fetchProfile s fr ins = (s, none) := by
  unfold fetchProfile
  simp [h]

/-- One step of the store preserves the null-user-null-profile invariant. -/
lemma step_null_preserved (t : AuthState) (a : Action)
    (ih : t.user = none → t.profile = none) :
    (step t a).user = none → (step t a).profile = none := by
  cases a with
  | init r fr ins =>
    cases r with
    | thrown msg => simpa [step, initStore] using ih
    | ok osess e =>
      cases osess with
      | none => simpa [step, initStore] using ih
      | some sess =>
        intro hu
        exfalso
        have hfu := (fetchProfile_frame
          { t with user := some sess.user, session := some sess,
                   isInitialized := true } fr ins).1
        simp [step, initStore] at hu
        rw [hfu] at hu
        simp at hu
  | login e p r fr ins =>
    cases r with
    | err msg => simpa [step, login] using ih
    | ok ou os =>
      cases ou with
      | none => simpa [step, login] using ih
      | some u =>
        intro hu
        exfalso
        have hfu := (fetchProfile_frame
          { t with isLoading := false, error := none, user := some u,
                   session := os } fr ins).1
        simp [step, login] at hu
        rw [hfu] at hu
        simp at hu
  | signup e p n r =>
    cases r with
    | err msg => simpa [step, signup] using ih
    | ok ou os =>
      cases ou with
      | none => simpa [step, signup] using ih
      | some u =>
        by_cases hj : jsFalsy u.email_confirmed_at
        · simpa [step, signup, hj] using ih
        · simp [step, signup, hj]
  | logout r =>
    cases r with
    | ok => intro _; simp [step, logout]
    | err msg => simpa [step, logout] using ih
  | fetchProfile fr ins =>
    intro hu
    have hfu := (fetchProfile_frame t fr ins).1
    simp only [step] at hu ⊢
    rw [hfu] at hu
    rw [fetchProfile_noUser t fr ins hu]
    exact ih hu
  | updateProfile r =>
    cases htu : t.user with
    | none => intro _; simp [step, updateProfile, htu]; exact ih htu
    | some u => cases r <;> simp [step, updateProfile, htu]
  | clearError => simpa [step, clearError] using ih
  | notify ev osess fr ins =>
    cases osess with
    | none => intro _; simp [step, onAuthChange]
    | some sess =>
      by_cases hev : ev = AuthEvent.signedIn ∨ ev = AuthEvent.tokenRefreshed
      · intro hu
        exfalso
        have hfu := (fetchProfile_frame
          { t with user := some sess.user, session := some sess,
                   error := none } fr ins).1
        simp [step, onAuthChange, hev] at hu
        rw [hfu] at hu
        simp at hu
      · simp [step, onAuthChange, hev]

/-! ### Claim theorems -/

/-- Claim C1: in every state reachable by any sequence of the store's
operations (initialize, login, signup, logout, fetchProfile,
updateProfile, clearError) and identity-change notifications, if the
identity is null then the profile is null. -/
theorem reachable_null_user_null_profile (s : AuthState) (h : Reachable s) :
    s.user = none → s.profile = none := by
  induction h with
  | start => intro _; rfl
  | next t a _ ih => exact step_null_preserved t a ih

/-- Claim C1 witness: the invariant instantiated at the concrete state
reached by a successful login followed by a successful logout. -/
theorem reachable_null_user_null_profile_witness :
    (step (step initialState
      (Action.login "a@x.com" "pw"
        (.ok (some sampleUser) (some sampleSession))
        (.found sampleProfile) (.ok sampleProfile)))
      (Action.logout .ok)).profile = none :=
  reachable_null_user_null_profile _
    (Reachable.next _ _ (Reachable.next _ _ Reachable.start)) rfl

/-- Claim C2 counterexample: when `getSession` reports a provider error in
its returned `error` field (rather than throwing), `initialize` completes
with the state's `error` still null — the error is logged, not recorded. -/
theorem initStore_returned_error_not_recorded :
    ((initStore initialState
        (.ok none (some "session backend unavailable"))
        (.found sampleProfile) (.ok sampleProfile)).1.error ≠
      some "session backend unavailable") ∧
    ((initStore initialState
        (.ok none (some "session backend unavailable"))
        (.found sampleProfile) (.ok sampleProfile)).1.error = none) := by
  decide

/-- Claim C2 (amended): on every outcome, `initialize` completes with
`isInitialized = true` and never re-throws; a provider error that is
thrown is recorded in `error`, while one returned in the `getSession`
result is only logged, leaving `error` unchanged. -/
theorem initStore_amended (s : AuthState) (r : GetSessionResult)
    (fr : FetchResult) (ins : InsertResult) :
    (initStore s r fr ins).1.isInitialized = true ∧
    (initStore s r fr ins).2 = none ∧
    (∀ msg, r = .thrown msg → (initStore s r fr ins).1.error = some msg) ∧
    (∀ osess e, r = .ok osess e → (initStore s r fr ins).1.error = s.error) := by
  cases r with
  | thrown msg => simp [initStore]
  | ok osess e =>
    cases osess with
    | none => simp [initStore]
    | some sess =>
      have hfr := fetchProfile_frame
        { s with user := some sess.user, session := some sess,
                 isInitialized := true } fr ins
      refine ⟨?_, ?_, ?_, ?_⟩
      · simp only [initStore]
        rw [hfr.2.2.2.1]
      · simp [initStore]
      · intro msg hmsg
        exact GetSessionResult.noConfusion hmsg
      · intro osess' e' h
        simp only [initStore]
        rw [hfr.2.2.2.2.1]

/-- Claim C2 witness: the amended theorem at a thrown provider error. -/
theorem initStore_amended_witness :
    (initStore initialState (.thrown "boom") (.found sampleProfile)
      (.ok sampleProfile)).1.error = some "boom" :=
  (initStore_amended initialState (.thrown "boom") (.found sampleProfile)
    (.ok sampleProfile)).2.2.1 "boom" rfl

/-- Claim C3 counterexample: a failing `logout` records the error in the
state but its promise resolves — no error is re-raised to the caller. -/
theorem logout_failure_does_not_reraise :
    (logout initialState (.err "network down")).2 = none ∧
    (logout initialState (.err "network down")).1.error
      = some "network down" := by
  decide

/-- Claim C3 (amended): on a provider/repository failure, `login` and
`signup` record the error and re-raise it to the caller; `logout` and
`updateProfile` record the error but never re-raise — their promise
resolves. -/
theorem error_propagation_policy (s : AuthState) (e p n msg : String)
    (fr : FetchResult) (ins : InsertResult) :
    (login s e p (.err msg) fr ins).2 = some (loginErrMsg msg) ∧
    (login s e p (.err msg) fr ins).1.error
      = some (strOrD (loginErrMsg msg) "Login failed") ∧
    (signup s e p n (.err msg)).2 = some msg ∧
    (signup s e p n (.err msg)).1.error = some (strOrD msg "Signup failed") ∧
    (logout s (.err msg)).2 = none ∧
    (logout s (.err msg)).1.error = some (strOrD msg "Logout failed") ∧
    (updateProfile s (.err msg)).2 = none ∧
    (s.user ≠ none →
      (updateProfile s (.err msg)).1.error
        = some (strOrD msg "Failed to update profile")) := by
  refine ⟨rfl, rfl, rfl, rfl, rfl, rfl, ?_, ?_⟩
  · cases hu : s.user <;> simp [updateProfile, hu]
  · intro h
    cases hu : s.user with
    | none => exact absurd hu h
    | some u => simp [updateProfile, hu]

/-- Claim C3 witness: the amended theorem's `updateProfile` clause at the
logged-in state. -/
theorem error_propagation_policy_witness :
    (updateProfile loggedInState (.err "boom")).1.error
      = some (strOrD "boom" "Failed to update profile") :=
  (error_propagation_policy loggedInState "e" "p" "n" "boom"
    (.found sampleProfile) (.ok sampleProfile)).2.2.2.2.2.2.2 (by decide)

/-- Claim C4: `fetchProfile` never rejects; it is a no-op when the
identity is null; every repository error other than the `PGRST116`
not-found code leaves the whole state (profile and error included)
unchanged, independent of any creation outcome; and exactly the
`PGRST116` signal triggers creating a profile record. -/
theorem fetchProfile_best_effort (s : AuthState) (fr : FetchResult)
    (ins : InsertResult) (code msg : String) (p : Profile) :
    (fetchProfile s fr ins).2 = none ∧
    (s.user = none → fetchProfile s fr ins = (s, none)) ∧
    (code ≠ "PGRST116" → fetchProfile s (.errCode code msg) ins = (s, none)) ∧
    (s.user ≠ none →
      fetchProfile s (.errCode "PGRST116" msg) (.ok p)
        = ({ s with profile := some p }, none)) := by
  refine ⟨(fetchProfile_frame s fr ins).2.2.2.2.2,
    fetchProfile_noUser s fr ins, ?_, ?_⟩
  · intro hc
    unfold fetchProfile
    cases hu : s.user with
    | none => simp [hu]
    | some u => simp [hu, hc]
  · intro h
    cases hu : s.user with
    | none => exact absurd hu h
    | some u =>
      unfold fetchProfile
      simp [hu]

/-- Claim C4 witness: a non-not-found repository error at the logged-in
state changes nothing. -/
theorem fetchProfile_best_effort_witness :
    fetchProfile loggedInState (.errCode "23505" "duplicate")
        (.ok sampleProfile) = (loggedInState, none) :=
  (fetchProfile_best_effort loggedInState (.errCode "23505" "duplicate")
    (.ok sampleProfile) "23505" "duplicate" sampleProfile).2.2.1 (by decide)

/-- Claim C5 counterexample: calling `signup` from a reachable logged-in
state, with the provider returning an unconfirmed identity, leaves the
prior identity in place — the resulting `user` is not null. -/
theorem signup_unconfirmed_keeps_prior_user :
    Reachable loggedInState ∧
    jsFalsy unconfirmedUser.email_confirmed_at = true ∧
    (signup loggedInState "b@x.com" "pw" "Bob"
        (.ok (some unconfirmedUser) none)).1.user ≠ none ∧
    (signup loggedInState "b@x.com" "pw" "Bob"
        (.ok (some unconfirmedUser) none)).1.user = some sampleUser :=
  ⟨Reachable.next initialState
      (Action.login "a@x.com" "pw"
        (.ok (some sampleUser) (some sampleSession))
        (.found sampleProfile) (.ok sampleProfile)) Reachable.start,
    rfl, by decide, by decide⟩

/-- Claim C5 (amended): when `signup` succeeds but the returned identity
is not yet email-confirmed, the state's identity, session and profile are
left unchanged (in particular they stay null when starting from an
unauthenticated state), `error` is set to the confirmation-pending
message, `isLoading` is false, and nothing is thrown. -/
theorem signup_unconfirmed_no_identity_change (s : AuthState)
    (e p n : String) (u : User) (os : Option Session)
    (h : jsFalsy u.email_confirmed_at = true) :
    (signup s e p n (.ok (some u) os)).1.user = s.user ∧
    (signup s e p n (.ok (some u) os)).1.session = s.session ∧
    (signup s e p n (.ok (some u) os)).1.profile = s.profile ∧
    (signup s e p n (.ok (some u) os)).1.error
      = some confirmationPendingMsg ∧
    (signup s e p n (.ok (some u) os)).1.isLoading = false ∧
    (signup s e p n (.ok (some u) os)).2 = none := by
  simp [signup, h]

/-- Claim C5 witness: the amended theorem at the unauthenticated initial
state, where the identity indeed stays null. -/
theorem signup_unconfirmed_no_identity_change_witness :
    (signup initialState "b@x.com" "pw" "Bob"
        (.ok (some unconfirmedUser) none)).1.user = none ∧
    (signup initialState "b@x.com" "pw" "Bob"
        (.ok (some unconfirmedUser) none)).1.error
      = some confirmationPendingMsg := by
  have h := signup_unconfirmed_no_identity_change initialState "b@x.com"
    "pw" "Bob" unconfirmedUser none rfl
  exact ⟨h.1, h.2.2.2.1⟩

/-- Claim C6: a successful login followed by a successful logout always
ends with identity, profile and session all null. -/
theorem login_logout_clears_state (s : AuthState) (e p : String)
    (ou : Option User) (os : Option Session) (fr : FetchResult)
    (ins : InsertResult) :
    (logout (login s e p (.ok ou os) fr ins).1 .ok).1.user = none ∧
    (logout (login s e p (.ok ou os) fr ins).1 .ok).1.profile = none ∧
    (logout (login s e p (.ok ou os) fr ins).1 .ok).1.session = none := by
  simp [logout]

/-- Claim C7: `updateProfile` never changes identity or session; on a
repository failure the profile keeps its prior value and, when a user is
present (so the repository call actually ran), `error` is set and
`isLoading` is false. -/
theorem updateProfile_frame (s : AuthState) (r : UpdateResult)
    (msg : String) :
    (updateProfile s r).1.user = s.user ∧
    (updateProfile s r).1.session = s.session ∧
    (updateProfile s (.err msg)).1.profile = s.profile ∧
    (s.user ≠ none →
      (updateProfile s (.err msg)).1.error
          = some (strOrD msg "Failed to update profile") ∧
      (updateProfile s (.err msg)).1.isLoading = false) := by
  cases hu : s.user with
  | none => simp [updateProfile, hu]
  | some u => cases r <;> simp [updateProfile, hu]

/-- Claim C7 witness: the failure clause at the logged-in state. -/
theorem updateProfile_frame_witness :
    (updateProfile loggedInState (.err "disk full")).1.isLoading = false :=
  ((updateProfile_frame loggedInState (.err "disk full") "disk full").2.2.2
    (by decide)).2

/-- Claim C8: the interleaving in which both concurrent `fetchProfile`
calls receive the not-found answer before either insert lands leaves both
creation attempts in flight at once, issues two insert statements, and —
absent a repository uniqueness constraint — creates two records. The code
has no per-identity serialization guard. -/
theorem fetchProfile_creation_race :
    (runRace "u1" raceSchedule).t1 = FPPhase.insertPending ∧
    (runRace "u1" raceSchedule).t2 = FPPhase.insertPending ∧
    (runRace "u1" raceSchedule).insertCalls = 2 ∧
    (runRace "u1" (raceSchedule ++
      [.insertReturns false, .insertReturns true])).insertCalls = 2 ∧
    (runRace "u1" (raceSchedule ++
      [.insertReturns false, .insertReturns true])).rows = ["u1", "u1"] := by
  decide

/-- Claim C9: the persistence policy's field selection retains no field of
the store's state — every field of the saved partial snapshot is absent —
so rehydrating any saved state yields exactly the uninitialized shape. -/
theorem partialize_retains_nothing (s : AuthState) :
    (partialize s).user = none ∧
    (partialize s).profile = none ∧
    (partialize s).session = none ∧
    (partialize s).isLoading = none ∧
    (partialize s).isInitialized = none ∧
    (partialize s).error = none ∧
    rehydrate (partialize s) = initialState :=
  ⟨rfl, rfl, rfl, rfl, rfl, rfl, rfl⟩

/-- Claim C10: when sign-in returns without error but with no user record,
`login` resolves normally with `error` null, leaves `isLoading` stuck at
true, and does not touch identity, session or profile. -/
theorem login_missing_user_leaves_loading (s : AuthState) (e p : String)
    (os : Option Session) (fr : FetchResult) (ins : InsertResult) :
    (login s e p (.ok none os) fr ins).2 = none ∧
    (login s e p (.ok none os) fr ins).1.error = none ∧
    (login s e p (.ok none os) fr ins).1.isLoading = true ∧
    (login s e p (.ok none os) fr ins).1.user = s.user ∧
    (login s e p (.ok none os) fr ins).1.session = s.session ∧
    (login s e p (.ok none os) fr ins).1.profile = s.profile := by
  simp [login]

end AuthStore
